import Mathlib

/-!
Verification of the retrieval-and-answer pipeline of the University-syllabus
RAG assistant, as a shallow embedding of `src/document_processor.py`,
`src/vector_store.py` and `src/rag_pipeline.py`.

External collaborators (the ChromaDB client and collection, the LangChain
retriever, the generative model, the PDF text extractor, the text splitter
and the SHA-256 digest) are consumed as black-box services in the source;
here they appear as explicit function parameters, so theorems quantify over
every possible behaviour of those services.

Python strings are modelled as Lean `String` (a sequence of characters /
code points, matching Python `len` and slicing semantics); Python
exceptions raised by a collaborator are modelled as `Except String`.
-/

namespace SyllabusRAG

/-! ## Data model: LangChain `Document` and its metadata

`document_processor.process_pdf` only ever stores the keys
`source`, `file_path`, `chunk_index`, `total_chunks`, `document_hash` in a
document's metadata dict; `rag_pipeline` only reads `source` and
`chunk_index` (with defaults for missing keys).  The dict is therefore
modelled as a record of optional fields, `dict.get(key, default)` as
`Option.getD`. -/

structure Metadata where
  source : Option String
  file_path : Option String
  chunk_index : Option Nat
  total_chunks : Option Nat
  document_hash : Option String
deriving DecidableEq, Repr

structure Document where
  page_content : String
  metadata : Metadata
deriving DecidableEq, Repr

/-- Python `s[:n]`: the first `n` characters of a string. -/
def pyTake (s : String) (n : Nat) : String :=
  String.mk (s.data.take n)

/-- Python `s.strip()`: remove leading and trailing whitespace. -/
def pyStrip (s : String) : String :=
  String.mk
    (((s.data.dropWhile Char.isWhitespace).reverse.dropWhile
      Char.isWhitespace).reverse)

/-- Python `metadata.get("source", "Unknown")`. -/
def Metadata.getSource (m : Metadata) : String :=
  m.source.getD "Unknown"

/-- Value of `metadata.get("chunk_index", "N/A")`: an integer when the key
is present, the literal string `"N/A"` otherwise. -/
inductive IdxVal where
  | idx (n : Nat)
  | na
deriving DecidableEq, Repr

/-- Python `metadata.get("chunk_index", "N/A")`. -/
def Metadata.getChunkIndex (m : Metadata) : IdxVal :=
  match m.chunk_index with
  | some n => .idx n
  | none => .na

/-- Rendering of the `chunk_index` field inside an f-string. -/
def IdxVal.render : IdxVal → String
  | .idx n => toString n
  | .na => "N/A"

/-! ## `document_processor.py` -/

/-- The two views of a `pathlib.Path` used by `process_pdf`:
`pdf_path.name` (the final component) and `str(pdf_path)`. -/
structure PdfPath where
  name : String
  full : String
deriving DecidableEq, Repr

/-- `DocumentProcessor._generate_hash`:
`hashlib.sha256(text.encode("utf-8")).hexdigest()`.  The stdlib digest is a
black-box deterministic function of the text, passed in as `sha256hex`. -/
def generate_hash (sha256hex : String → String) (text : String) : String :=
  sha256hex text

/-- `DocumentProcessor.process_pdf`.  `extract` models
`extract_text_from_pdf` (which raises `ValueError` on unreadable or empty
PDFs), `split` models `RecursiveCharacterTextSplitter.split_text`.  The
method extracts the text, hashes the full pre-chunk text once, splits it,
and emits one `Document` per chunk with enumerated metadata. -/
def process_pdf (extract : PdfPath → Except String String)
    (sha256hex : String → String) (split : String → List String)
    (pdf_path : PdfPath) : Except String (List Document) := do
  let text ← extract pdf_path
  let doc_hash := generate_hash sha256hex text
  let chunks := split text
  return chunks.enum.map (fun p =>
    { page_content := p.2
      metadata :=
        { source := some pdf_path.name
          file_path := some pdf_path.full
          chunk_index := some p.1
          total_chunks := some chunks.length
          document_hash := some doc_hash } })

/-! ## `vector_store.py` -/

/-- `Config.TOP_K_RESULTS` with its default environment value. -/
def TOP_K_RESULTS : Nat := 6

/-- Python `k = k or Config.TOP_K_RESULTS` on an `Optional[int]`:
`None` and `0` are falsy, so both fall back to the default. -/
def orTopK : Option Nat → Nat
  | none => TOP_K_RESULTS
  | some v => if v = 0 then TOP_K_RESULTS else v

/-- Black-box behaviour of the ChromaDB collection obtained from
`client.get_collection`: `getByHash h` models
`collection.get(where=\x7b"document_hash": h\x7d, limit=1)["ids"]`, and
`count` models `collection.count()`; either call may raise. -/
structure ChromaCollection where
  getByHash : String → Except String (List String)
  count : Except String Nat

/-- Black-box behaviour of the persistence layer reached through
`self.client` and `self.vector_store`: `get_collection` may raise when the
collection is absent or the store is degraded; `ranked q` is the full
relevance-ordered result list the backing store holds for query `q`, of
which `Chroma.similarity_search_with_score(q, k)` returns the first `k`.
Scores are opaque here and modelled as `Int`. -/
structure ChromaStore where
  get_collection : String → Except String ChromaCollection
  ranked : String → List (Document × Int)

/-- The underlying `Chroma.similarity_search_with_score(query, k=n)`:
top-`n` results by raw relevance score. -/
def chromaSearchWithScore (store : ChromaStore) (query : String) (n : Nat) :
    List (Document × Int) :=
  (store.ranked query).take n

/-- `SyllabusVectorStore.document_exists`: queries the collection for any
record carrying the hash in metadata; any exception yields `False`. -/
def document_exists (store : ChromaStore) (collection_name : String)
    (document_hash : String) : Bool :=
  match store.get_collection collection_name with
  | .error _ => false
  | .ok collection =>
    match collection.getByHash document_hash with
    | .error _ => false
    | .ok ids => ids.length > 0

/-- `SyllabusVectorStore.similarity_search`: resolves `k` against the
configured default and calls the underlying store with that `k`. -/
def similarity_search (store : ChromaStore) (query : String)
    (k : Option Nat) : List (Document × Int) :=
  chromaSearchWithScore store query (orTopK k)

/-- `SyllabusVectorStore.similarity_search_with_score`: resolves `k`
against the configured default and calls the underlying store with
`k * 2`. -/
def similarity_search_with_score (store : ChromaStore) (query : String)
    (k : Option Nat) : List (Document × Int) :=
  chromaSearchWithScore store query (orTopK k * 2)

/-- Result shape of `SyllabusVectorStore.get_collection_info`. -/
structure CollectionInfo where
  collection_name : String
  document_count : Nat
  db_path : String
deriving DecidableEq, Repr

/-- `SyllabusVectorStore.get_collection_info`: reports the collection name,
record count and path; any exception (absent collection, failing count)
degrades to a count of `0`. -/
def get_collection_info (store : ChromaStore) (collection_name : String)
    (db_path : String) : CollectionInfo :=
  match store.get_collection collection_name with
  | .error _ =>
    { collection_name := collection_name, document_count := 0
      db_path := db_path }
  | .ok collection =>
    match collection.count with
    | .error _ =>
      { collection_name := collection_name, document_count := 0
        db_path := db_path }
    | .ok n =>
      { collection_name := collection_name, document_count := n
        db_path := db_path }

/-! ## `rag_pipeline.py` -/

/-- An entry of the `sources` list built by `RAGPipeline._extract_sources`. -/
structure SourceInfo where
  filename : String
  chunk_index : IdxVal
  preview : String
deriving DecidableEq, Repr

/-- The source-list entry built for one retrieved document inside the loop
of `_extract_sources`: filename, chunk index, and a preview that is
`doc.page_content[:1000] + "..."` when `len(doc.page_content) > 200` and
the full text otherwise. -/
def mkSourceInfo (doc : Document) : SourceInfo :=
  { filename := doc.metadata.getSource
    chunk_index := doc.metadata.getChunkIndex
    preview :=
      if doc.page_content.length > 200 then
        pyTake doc.page_content 1000 ++ "..."
      else
        doc.page_content }

/-- The loop of `RAGPipeline._extract_sources`, carrying the
`seen_sources` set (modelled as the list of names added so far). -/
def extractSourcesAux (seen : List String) : List Document → List SourceInfo
  | [] => []
  | doc :: rest =>
    let source_name := doc.metadata.getSource
    if source_name ∈ seen then
      extractSourcesAux seen rest
    else
      mkSourceInfo doc :: extractSourcesAux (source_name :: seen) rest

/-- `RAGPipeline._extract_sources`: fold over the retrieved documents,
skipping any document whose source name was already emitted. -/
def extract_sources (documents : List Document) : List SourceInfo :=
  extractSourcesAux [] documents

/-- `RAGPipeline._format_context`: tag each chunk with
`[source | chunk index]` and join with the separator line. -/
def format_context (documents : List Document) : String :=
  String.intercalate "\n\n---\n\n"
    (documents.map (fun doc =>
      "[" ++ doc.metadata.getSource ++ " | chunk "
        ++ doc.metadata.getChunkIndex.render ++ "]\n" ++ doc.page_content))

/-- The system message produced by `self.prompt.format_messages(context=c,
question=q)`: the fixed `PROMPT_TEMPLATE` with its two substitution points
filled.  Only the placement of `context` and `question` matters to the
claims; the surrounding instruction text is carried verbatim. -/
def promptMessage (context question : String) : String :=
  "You are an expert academic assistant specializing in university syllabi.\n\n"
    ++ "Use ONLY the following context from uploaded syllabus documents to answer the question.\n\n"
    ++ "If the answer cannot be found in the provided context, say:\n"
    ++ "\"I don't have enough information in the uploaded syllabus documents to answer this question.\"\n\n"
    ++ "Context from syllabus documents:\n" ++ context ++ "\n\n"
    ++ "Question:\n" ++ question ++ "\n\n"
    ++ "Instructions:\n"
    ++ "1. Answer ONLY using information from the provided context.\n"
    ++ "2. Do NOT use external knowledge.\n"
    ++ "3. Provide a well-structured and detailed explanation.\n"
    ++ "4. Use multiple paragraphs when necessary.\n"
    ++ "5. Clearly explain requirements, schedules, grading policies, or course content when mentioned.\n"
    ++ "6. Reference the source filename when possible.\n"
    ++ "7. Do not summarize too briefly.\n\n"
    ++ "Answer:\n"

/-- The dictionary returned by `RAGPipeline.answer_question`.  The
`source_documents` key is present only on the fallback and success paths,
hence an `Option`. -/
structure AnswerResult where
  answer : String
  sources : List SourceInfo
  source_documents : Option (List Document)
deriving DecidableEq, Repr

/-- `RAGPipeline.answer_question`.  `retrieve` models
`self.retriever.invoke` (the MMR retriever over the vector store) and
`llm` models `self.llm.invoke` followed by the `content` extraction; each
may raise, and the `except` clause of the source converts any such
exception `e` into `f"Error processing question: \x7bstr(e)\x7d"`. -/
def answer_question (retrieve : String → Except String (List Document))
    (llm : String → Except String String) (question : String) :
    AnswerResult :=
  if pyStrip question = "" then
    { answer := "Please provide a valid question."
      sources := []
      source_documents := none }
  else
    match retrieve question with
    | .error e =>
      { answer := "Error processing question: " ++ e
        sources := []
        source_documents := none }
    | .ok source_documents =>
      if source_documents.isEmpty then
        { answer := "I don't have enough information in the uploaded syllabus documents to answer this question."
          sources := []
          source_documents := some [] }
      else
        let context := format_context source_documents
        let message := promptMessage context question
        match llm message with
        | .error e =>
          { answer := "Error processing question: " ++ e
            sources := []
            source_documents := none }
        | .ok answer =>
          { answer := answer
            sources := extract_sources source_documents
            source_documents := some source_documents }

/-! ## Specification-side definitions and concrete fixtures -/

/-- The filename key under which `_extract_sources` deduplicates:
`metadata.get("source", "Unknown")`. -/
def keyOf (doc : Document) : String := doc.metadata.getSource

/-- Written from the spec's words, for comparison with `extract_sources`:
deduplicate a document list by filename, first occurrence wins, retrieval
rank order preserved. -/
def dedupByFilename : List Document → List Document
  | [] => []
  | d :: ds =>
    d :: dedupByFilename (ds.filter (fun x => !(keyOf x == keyOf d)))
termination_by l => l.length
decreasing_by
  simp only [List.length_cons]
  exact Nat.lt_succ_of_le (List.length_filter_le _ _)

/-- Metadata carrying only a source filename and a chunk index, as used in
the deduplication example of the claim. -/
def exMeta (s : String) (i : Nat) : Metadata :=
  { source := some s, file_path := none, chunk_index := some i
    total_chunks := none, document_hash := none }

/-- First retrieved chunk of the claim's example: filename A, index 0. -/
def exDocA0 : Document := { page_content := "alpha", metadata := exMeta "A" 0 }

/-- Second retrieved chunk of the claim's example: filename A, index 2. -/
def exDocA2 : Document := { page_content := "beta", metadata := exMeta "A" 2 }

/-- Third retrieved chunk of the claim's example: filename B, index 1. -/
def exDocB1 : Document := { page_content := "gamma", metadata := exMeta "B" 1 }

/-- A retrieved chunk whose text has length 1500. -/
def doc1500 : Document :=
  { page_content := String.mk (List.replicate 1500 'a')
    metadata := exMeta "long.pdf" 0 }

/-- A retrieved chunk whose text has length 150. -/
def doc150 : Document :=
  { page_content := String.mk (List.replicate 150 'b')
    metadata := exMeta "short.pdf" 0 }

/-- A retrieved chunk whose text has length 300: longer than 200 but at
most 1000. -/
def doc300 : Document :=
  { page_content := String.mk (List.replicate 300 'c')
    metadata := exMeta "mid.pdf" 0 }

/-- A backing store holding two ranked results for every query. -/
def twoDocStore : ChromaStore :=
  { get_collection := fun _ => .error "unused"
    ranked := fun _ => [(exDocA0, 9), (exDocB1, 8)] }

/-- A persistence layer whose `get_collection` always raises. -/
def downStore : ChromaStore :=
  { get_collection := fun _ => .error "collection does not exist"
    ranked := fun _ => [] }

/-- Concrete extractor for witnesses: every path yields the same text. -/
def wExtract : PdfPath → Except String String :=
  fun _ => .ok "Course X requires Calculus I."

/-- Concrete stand-in digest for witnesses. -/
def wSha : String → String := fun s => "h:" ++ s

/-- Concrete splitter for witnesses: two chunks. -/
def wSplit : String → List String := fun s => [pyTake s 10, s]

/-- A first upload path. -/
def wPath1 : PdfPath := { name := "a.pdf", full := "/tmp/a.pdf" }

/-- A second upload path with a different filename and directory. -/
def wPath2 : PdfPath := { name := "b.pdf", full := "/uploads/b.pdf" }

/-! ## Theorems -/

theorem doc1500_len : doc1500.page_content.length = 1500 :=
  List.length_replicate 1500 'a'

theorem doc150_len : doc150.page_content.length = 150 :=
  List.length_replicate 150 'b'

theorem doc300_len : doc300.page_content.length = 300 :=
  List.length_replicate 300 'c'

/-- Claim C1: for every question that passes validation and for which the
retriever returns zero documents, `answer_question` returns exactly the
literal fallback sentence as the answer together with an empty source
list; and the generative model is not invoked — the result is identical
under every possible `llm`. -/
theorem answer_question_zero_retrieval_fallback
    (retrieve : String → Except String (List Document))
    (llm llm2 : String → Except String String) (question : String)
    (hq : pyStrip question ≠ "") (hr : retrieve question = .ok []) :
    answer_question retrieve llm question =
      { answer := "I don't have enough information in the uploaded syllabus documents to answer this question."
        sources := []
        source_documents := some [] }
    ∧ answer_question retrieve llm question
        = answer_question retrieve llm2 question := by
  constructor <;> simp [answer_question, if_neg hq, hr]

/-- Claim C1 witness: a concrete non-blank question and a retriever that
returns zero documents. -/
theorem answer_question_zero_retrieval_fallback_witness :
    pyStrip "What is graded?" ≠ "" ∧
      answer_question (fun _ => .ok []) (fun _ => .ok "model text")
          "What is graded?" =
        { answer := "I don't have enough information in the uploaded syllabus documents to answer this question."
          sources := []
          source_documents := some [] } :=
  ⟨by decide,
    (answer_question_zero_retrieval_fallback _ _ (fun _ => .ok "other") _
      (by decide) rfl).1⟩

/-- Claim C3 counterexample: at the empty question the code returns the
answer `"Please provide a valid question."`, not the claimed literal
`"please provide a valid question"` (capitalisation and final period
differ). -/
theorem answer_question_blank_message_differs :
    (answer_question (fun _ => .ok []) (fun _ => .ok "model text")
        "").answer
      ≠ "please provide a valid question" := by
  decide

/-- Claim C3 amended: for every question that is empty or whitespace-only,
`answer_question` returns the fixed validation message
`"Please provide a valid question."` with an empty source list, and
performs no retrieval call — the result is identical under every possible
`retrieve`. -/
theorem answer_question_blank_validation
    (retrieve retrieve2 : String → Except String (List Document))
    (llm : String → Except String String) (question : String)
    (hq : pyStrip question = "") :
    answer_question retrieve llm question =
      { answer := "Please provide a valid question."
        sources := []
        source_documents := none }
    ∧ answer_question retrieve llm question
        = answer_question retrieve2 llm question := by
  constructor <;> simp [answer_question, if_pos hq]

/-- Claim C3 witness: a concrete whitespace-only question. -/
theorem answer_question_blank_validation_witness :
    pyStrip "  " = "" ∧
      answer_question (fun _ => .ok []) (fun _ => .ok "model text") "  " =
        { answer := "Please provide a valid question."
          sources := []
          source_documents := none } :=
  ⟨rfl,
    (answer_question_blank_validation _ (fun _ => .error "down") _ "  "
      (by decide)).1⟩

/-- Claim C7: any exception raised by the retriever, or by the generative
model on the non-empty retrieval path, is caught and converted into a
well-formed result whose answer describes the error and whose source list
is empty; `answer_question` is a total function, so no fault propagates. -/
theorem answer_question_error_conversion
    (retrieve : String → Except String (List Document))
    (llm : String → Except String String) (question e : String)
    (hq : pyStrip question ≠ "")
    (h : retrieve question = .error e ∨
      ∃ docs, retrieve question = .ok docs ∧ docs ≠ [] ∧
        llm (promptMessage (format_context docs) question) = .error e) :
    answer_question retrieve llm question =
      { answer := "Error processing question: " ++ e
        sources := []
        source_documents := none } := by
  rcases h with h | ⟨docs, hr, hne, hl⟩
  · simp [answer_question, if_neg hq, h]
  · have hde : docs.isEmpty = false := by
      cases docs with
      | nil => exact absurd rfl hne
      | cons a as => rfl
    simp [answer_question, if_neg hq, hr, hde, hl]

/-- Claim C7 witness: a concrete failing retriever. -/
theorem answer_question_error_conversion_witness :
    pyStrip "Why?" ≠ "" ∧
      answer_question (fun _ => .error "boom") (fun _ => .ok "model text")
          "Why?" =
        { answer := "Error processing question: boom"
          sources := []
          source_documents := none } :=
  ⟨by decide,
    answer_question_error_conversion _ _ _ _ (by decide) (Or.inl rfl)⟩

/-- Claim C6: in the source list, a chunk whose text length exceeds 200
gets as preview its first 1000 characters followed by the ellipsis marker
(so a chunk of length at least 1000 has a preview of exactly 1003
characters), and a chunk of length at most 200 gets its full text
untruncated. -/
theorem source_preview_truncation (doc : Document) :
    (200 < doc.page_content.length →
      (mkSourceInfo doc).preview = pyTake doc.page_content 1000 ++ "..."
      ∧ (1000 ≤ doc.page_content.length →
          (mkSourceInfo doc).preview.length = 1003))
    ∧ (doc.page_content.length ≤ 200 →
      (mkSourceInfo doc).preview = doc.page_content) := by
  constructor
  · intro h
    constructor
    · simp [mkSourceInfo, h]
    · intro h1000
      simp only [mkSourceInfo, if_pos h]
      show ((pyTake doc.page_content 1000).data ++ "...".data).length = 1003
      rw [List.length_append]
      show (doc.page_content.data.take 1000).length + 3 = 1003
      rw [List.length_take]
      have : doc.page_content.data.length = doc.page_content.length := rfl
      omega
  · intro h
    have : ¬(200 < doc.page_content.length) := by omega
    simp [mkSourceInfo, this]

/-- Claim C6 witness: instances at a chunk of length 1500 (truncated to a
1003-character preview) and a chunk of length 150 (returned whole). -/
theorem source_preview_truncation_witness :
    (200 < doc1500.page_content.length
      ∧ 1000 ≤ doc1500.page_content.length
      ∧ (mkSourceInfo doc1500).preview.length = 1003)
    ∧ (doc150.page_content.length ≤ 200
      ∧ (mkSourceInfo doc150).preview = doc150.page_content) :=
  ⟨⟨by rw [doc1500_len]; omega, by rw [doc1500_len]; omega,
    ((source_preview_truncation doc1500).1 (by rw [doc1500_len]; omega)).2
      (by rw [doc1500_len]; omega)⟩,
   ⟨by rw [doc150_len]; omega,
    (source_preview_truncation doc150).2 (by rw [doc150_len]; omega)⟩⟩

/-- Claim C10: a chunk whose text length is greater than 200 but at most
1000 gets as preview its entire text with the ellipsis marker appended,
although nothing was removed by the truncation. -/
theorem source_preview_midrange_ellipsis (doc : Document)
    (h1 : 200 < doc.page_content.length)
    (h2 : doc.page_content.length ≤ 1000) :
    (mkSourceInfo doc).preview = doc.page_content ++ "..." := by
  simp only [mkSourceInfo, if_pos h1]
  have htake : doc.page_content.data.take 1000 = doc.page_content.data :=
    List.take_of_length_le h2
  show String.mk (doc.page_content.data.take 1000) ++ "..."
      = doc.page_content ++ "..."
  rw [htake]

/-- Claim C10 witness: a chunk of length 300 yields its full text plus the
ellipsis marker. -/
theorem source_preview_midrange_ellipsis_witness :
    200 < doc300.page_content.length
    ∧ doc300.page_content.length ≤ 1000
    ∧ (mkSourceInfo doc300).preview = doc300.page_content ++ "..." :=
  ⟨by rw [doc300_len]; omega, by rw [doc300_len]; omega,
    source_preview_midrange_ellipsis doc300 (by rw [doc300_len]; omega)
      (by rw [doc300_len]; omega)⟩

/-- Claim C2: the code violates the claim.  With `k = 1` and a backing
store holding two ranked results for the query, the non-diversity search
`similarity_search_with_score` returns 2 results: it requests `k * 2`
results from the backing store instead of `k`. -/
theorem similarity_search_with_score_doubles_k :
    (similarity_search_with_score twoDocStore "grading" (some 1)).length = 2
    ∧ similarity_search_with_score twoDocStore "grading" (some 1)
        = chromaSearchWithScore twoDocStore "grading" 2 := by
  constructor <;> rfl

/-- Claim C8: when the persistence layer raises during the existence check
(either on `get_collection` or on the metadata query), `document_exists`
returns `false`; and when the collection is absent, `get_collection_info`
reports a document count of 0. -/
theorem storage_degrades_to_safe_defaults
    (store : ChromaStore) (cname dbp dochash e : String)
    (hc : store.get_collection cname = .error e ∨
      ∃ c, store.get_collection cname = .ok c ∧
        c.getByHash dochash = .error e) :
    document_exists store cname dochash = false
    ∧ (store.get_collection cname = .error e →
        get_collection_info store cname dbp =
          { collection_name := cname, document_count := 0
            db_path := dbp }) := by
  constructor
  · rcases hc with h | ⟨c, hok, hget⟩
    · simp [document_exists, h]
    · simp [document_exists, hok, hget]
  · intro h
    simp [get_collection_info, h]

/-- Claim C8 witness: a store whose `get_collection` always raises. -/
theorem storage_degrades_to_safe_defaults_witness :
    downStore.get_collection "syllabus_documents"
        = .error "collection does not exist"
    ∧ document_exists downStore "syllabus_documents" "deadbeef" = false
    ∧ get_collection_info downStore "syllabus_documents" "./chroma_db" =
        { collection_name := "syllabus_documents", document_count := 0
          db_path := "./chroma_db" } :=
  ⟨rfl,
    (storage_degrades_to_safe_defaults downStore "syllabus_documents"
      "./chroma_db" "deadbeef" "collection does not exist" (Or.inl rfl)).1,
    (storage_degrades_to_safe_defaults downStore "syllabus_documents"
      "./chroma_db" "deadbeef" "collection does not exist"
      (Or.inl rfl)).2 rfl⟩

/-- Claim C5: the document identity hash is a function of the extracted
text alone.  For any digest function and any two paths whose extraction
yields the same text, every chunk of either processed document carries the
digest of that text as its hash — regardless of filename or file path —
and hence the two documents receive identical hashes. -/
theorem document_hash_text_determined
    (extract : PdfPath → Except String String)
    (sha256hex : String → String) (split : String → List String)
    (p1 p2 : PdfPath) (t : String) (docs1 docs2 : List Document)
    (h1 : extract p1 = .ok t) (h2 : extract p2 = .ok t)
    (hp1 : process_pdf extract sha256hex split p1 = .ok docs1)
    (hp2 : process_pdf extract sha256hex split p2 = .ok docs2) :
    ∀ d1 ∈ docs1, ∀ d2 ∈ docs2,
      d1.metadata.document_hash = some (generate_hash sha256hex t)
      ∧ d1.metadata.document_hash = d2.metadata.document_hash := by
  have key : ∀ (p : PdfPath) (docs : List Document),
      extract p = .ok t →
      process_pdf extract sha256hex split p = .ok docs →
      ∀ d ∈ docs,
        d.metadata.document_hash = some (generate_hash sha256hex t) := by
    intro p docs hex hp d hd
    rw [process_pdf, hex] at hp
    injection hp with hp
    subst hp
    rcases List.mem_map.mp hd with ⟨q, _, rfl⟩
    rfl
  intro d1 hd1 d2 hd2
  have e1 := key p1 docs1 h1 hp1 d1 hd1
  have e2 := key p2 docs2 h2 hp2 d2 hd2
  exact ⟨e1, e1.trans e2.symm⟩

/-- Claim C5 witness: two uploads under different filenames and paths whose
extraction yields the same text; all chunks of both carry the same hash. -/
theorem document_hash_text_determined_witness :
    wExtract wPath1 = .ok "Course X requires Calculus I."
    ∧ wExtract wPath2 = .ok "Course X requires Calculus I."
    ∧ wPath1.name ≠ wPath2.name
    ∧ (∀ d1 ∈ (process_pdf wExtract wSha wSplit wPath1).toOption.getD [],
        ∀ d2 ∈ (process_pdf wExtract wSha wSplit wPath2).toOption.getD [],
        d1.metadata.document_hash
            = some (generate_hash wSha "Course X requires Calculus I.")
        ∧ d1.metadata.document_hash = d2.metadata.document_hash) :=
  ⟨rfl, rfl, by decide,
    document_hash_text_determined wExtract wSha wSplit wPath1 wPath2
      "Course X requires Calculus I." _ _ rfl rfl rfl rfl⟩

/-- Claim C9: for a successfully processed document, the chunk at every
position `i` carries chunk index `i` (sequential, 0-based, unique), the
shared source filename and file path, the document hash computed once from
the full pre-chunk text, and a `total_chunks` field equal to the number of
chunks produced. -/
theorem process_pdf_chunk_metadata
    (extract : PdfPath → Except String String)
    (sha256hex : String → String) (split : String → List String)
    (p : PdfPath) (t : String) (docs : List Document)
    (ht : extract p = .ok t)
    (hp : process_pdf extract sha256hex split p = .ok docs) :
    ∀ (i : Nat) (h : i < docs.length),
      (docs.get ⟨i, h⟩).metadata =
        { source := some p.name
          file_path := some p.full
          chunk_index := some i
          total_chunks := some docs.length
          document_hash := some (generate_hash sha256hex t) } := by
  rw [process_pdf, ht] at hp
  injection hp with hp
  subst hp
  intro i h
  simp only [List.get_eq_getElem, List.getElem_map, List.length_map,
    List.enum_length, List.getElem_enum]

/-- Claim C9 witness: a concrete extractor and two-chunk splitter; the
chunk at position 1 carries index 1, the shared provenance metadata and
`total_chunks = 2`. -/
theorem process_pdf_chunk_metadata_witness :
    wExtract wPath1 = .ok "Course X requires Calculus I."
    ∧ ((process_pdf wExtract wSha wSplit wPath1).toOption.getD []).length = 2
    ∧ (((process_pdf wExtract wSha wSplit wPath1).toOption.getD []).get
        ⟨1, by decide⟩).metadata =
        { source := some "a.pdf"
          file_path := some "/tmp/a.pdf"
          chunk_index := some 1
          total_chunks := some 2
          document_hash
            := some (generate_hash wSha "Course X requires Calculus I.") } :=
  ⟨rfl, rfl,
    process_pdf_chunk_metadata wExtract wSha wSplit wPath1
      "Course X requires Calculus I." _ rfl rfl 1 (by decide)⟩

theorem extractSourcesAux_eq (docs : List Document) :
    ∀ seen : List String,
      extractSourcesAux seen docs =
        (dedupByFilename
          (docs.filter (fun d => decide (keyOf d ∉ seen)))).map
          mkSourceInfo := by
  induction docs with
  | nil => intro seen; simp [extractSourcesAux, dedupByFilename]
  | cons d ds ih =>
    intro seen
    simp only [extractSourcesAux]
    by_cases h : d.metadata.getSource ∈ seen
    · rw [if_pos h, List.filter_cons_of_neg (by simp [keyOf, h]), ih seen]
    · rw [if_neg h, List.filter_cons_of_pos (by simp [keyOf, h]),
        dedupByFilename, List.map_cons,
        ih (d.metadata.getSource :: seen), List.filter_filter]
      have hfil :
          ds.filter
              (fun a => !(keyOf a == keyOf d) && decide (keyOf a ∉ seen))
            = ds.filter
              (fun a =>
                decide (keyOf a ∉ d.metadata.getSource :: seen)) := by
        apply List.filter_congr
        intro a _
        by_cases h1 : keyOf a = keyOf d <;>
          by_cases h2 : keyOf a ∈ seen <;> simp [keyOf, h1, h2] at * <;>
          simp [h1, h2]
      rw [hfil]

/-- Claim C4: the source list is the retrieved document sequence
deduplicated by filename, first occurrence winning, rank order preserved;
in particular for the claim's example input `[A idx 0, A idx 2, B idx 1]`
it has exactly the two entries A (with chunk index 0) then B. -/
theorem extract_sources_dedup_by_filename :
    (∀ docs : List Document,
      extract_sources docs = (dedupByFilename docs).map mkSourceInfo)
    ∧ extract_sources [exDocA0, exDocA2, exDocB1]
        = [{ filename := "A", chunk_index := .idx 0, preview := "alpha" },
           { filename := "B", chunk_index := .idx 1, preview := "gamma" }]
    := by
  constructor
  · intro docs
    rw [extract_sources, extractSourcesAux_eq]
    simp
  · rfl

end SyllabusRAG
